import Mathlib

/-!
Verification of the balances pallet (`src/balances.rs`) of
dotcodeschool-rust-state-machine.

The pallet stores a `BTreeMap<String, u128>` of account balances and exposes
`new`, `set_balance`, `get_balance` and `transfer`.  We embed the state as an
association list from `String` to `Nat`; `u128` values are `Nat`s bounded by
`U128_MAX`, and the two checked operations `checked_sub` / `checked_add` are
modelled explicitly with that bound.  `transfer`'s early returns via `ok_or`
and `?` become an `Except String` computation.
-/

namespace Balances

/-- `u128::MAX`, the largest representable balance. -/
def U128_MAX : Nat := 2 ^ 128 - 1

/-- `u128::checked_sub`: `a - b`, or `none` on underflow. -/
def checked_sub (a b : Nat) : Option Nat :=
  if b ≤ a then some (a - b) else none

/-- `u128::checked_add`: `a + b`, or `none` when the result exceeds
`u128::MAX`. -/
def checked_add (a b : Nat) : Option Nat :=
  if a + b ≤ U128_MAX then some (a + b) else none

/-- Insert into the association list, replacing the binding of `who` if one
exists (the behaviour of `BTreeMap::insert` as observed through lookups). -/
def mapInsert (who : String) (amount : Nat) :
    List (String × Nat) → List (String × Nat)
  | [] => [(who, amount)]
  | (k, v) :: rest =>
      if k = who then (who, amount) :: rest
      else (k, v) :: mapInsert who amount rest

/-- The state of the balances module: `balances: BTreeMap<String, u128>`. -/
structure Pallet where
  balances : List (String × Nat)
deriving Repr, DecidableEq

/-- `Pallet::new`: create a new instance of the balances module. -/
def Pallet.new : Pallet := ⟨[]⟩

/-- `Pallet::set_balance`: set the balance of account `who` to `amount`. -/
def Pallet.set_balance (p : Pallet) (who : String) (amount : Nat) : Pallet :=
  ⟨mapInsert who amount p.balances⟩

/-- `Pallet::get_balance`: the balance of `who`, `0` if no entry exists
(`self.balances.get(who).unwrap_or(&0)`). -/
def Pallet.get_balance (p : Pallet) (who : String) : Nat :=
  (p.balances.lookup who).getD 0

/-- `Pallet::transfer`: transfer `amount` from `caller` to `to`, verifying
sufficient funds and absence of overflow.  Both balances are read before any
write, exactly as in the source. -/
def Pallet.transfer (p : Pallet) (caller toAcc : String) (amount : Nat) :
    Except String Pallet :=
  let caller_balance := p.get_balance caller
  let to_balance := p.get_balance toAcc
  match checked_sub caller_balance amount with
  | none => .error "Not enough funds."
  | some new_caller_balance =>
      match checked_add to_balance amount with
      | none => .error "Overflow error."
      | some new_to_balance =>
          .ok ((p.set_balance caller new_caller_balance).set_balance toAcc
            new_to_balance)

/-- The pallet state observed by the Rust caller after `transfer`: on `Ok` the
mutated state, on `Err` the state is untouched. -/
def afterTransfer (p : Pallet) (caller toAcc : String) (amount : Nat) : Pallet :=
  match p.transfer caller toAcc amount with
  | .ok q => q
  | .error _ => p

/-- All stored balances fit in a `u128`; this invariant is guaranteed by the
Rust type and holds for every state reachable through the API. -/
def Pallet.WF (p : Pallet) : Prop :=
  ∀ kv ∈ p.balances, kv.2 ≤ U128_MAX

instance (p : Pallet) : Decidable p.WF := by
  unfold Pallet.WF; infer_instance

/-! ### Lookup / insert lemmas -/

theorem lookup_mapInsert_self (l : List (String × Nat)) (k : String) (v : Nat) :
    (mapInsert k v l).lookup k = some v := by
  induction l with
  | nil => simp [mapInsert, List.lookup]
  | cons hd tl ih =>
      obtain ⟨k', v'⟩ := hd
      by_cases h : k' = k
      · simp [mapInsert, h, List.lookup]
      · simp only [mapInsert, if_neg h, List.lookup]
        have h' : (k == k') = false := by
          simp [beq_iff_eq]; exact fun e => h e.symm
        simp [h', ih]

theorem lookup_mapInsert_ne (l : List (String × Nat)) (k k' : String) (v : Nat)
    (h : k' ≠ k) : (mapInsert k v l).lookup k' = l.lookup k' := by
  have hb : (k' == k) = false := beq_eq_false_iff_ne.mpr h
  induction l with
  | nil =>
      simp [mapInsert, List.lookup, hb]
  | cons hd tl ih =>
      obtain ⟨k₀, v₀⟩ := hd
      by_cases h₀ : k₀ = k
      · subst h₀
        simp [mapInsert, List.lookup, hb]
      · simp only [mapInsert, if_neg h₀, List.lookup]
        cases hbe : (k' == k₀) <;> simp [hbe, ih]

theorem get_balance_set_self (p : Pallet) (a : String) (v : Nat) :
    (p.set_balance a v).get_balance a = v := by
  simp [Pallet.get_balance, Pallet.set_balance, lookup_mapInsert_self]

theorem get_balance_set_ne (p : Pallet) (a x : String) (v : Nat) (h : x ≠ a) :
    (p.set_balance a v).get_balance x = p.get_balance x := by
  simp [Pallet.get_balance, Pallet.set_balance, lookup_mapInsert_ne _ _ _ _ h]

/-! ### Characterisation of `transfer` by cases -/

theorem transfer_eq_insufficient (p : Pallet) (a b : String) (n : Nat)
    (h : p.get_balance a < n) :
    p.transfer a b n = .error "Not enough funds." := by
  simp [Pallet.transfer, checked_sub, Nat.not_le.2 h]

theorem transfer_eq_overflow (p : Pallet) (a b : String) (n : Nat)
    (h1 : n ≤ p.get_balance a) (h2 : U128_MAX < p.get_balance b + n) :
    p.transfer a b n = .error "Overflow error." := by
  simp [Pallet.transfer, checked_sub, checked_add, h1, Nat.not_le.2 h2]

theorem transfer_eq_ok (p : Pallet) (a b : String) (n : Nat)
    (h1 : n ≤ p.get_balance a) (h2 : p.get_balance b + n ≤ U128_MAX) :
    p.transfer a b n =
      .ok ((p.set_balance a (p.get_balance a - n)).set_balance b
        (p.get_balance b + n)) := by
  simp [Pallet.transfer, checked_sub, checked_add, h1, h2]

theorem afterTransfer_insufficient (p : Pallet) (a b : String) (n : Nat)
    (h : p.get_balance a < n) : afterTransfer p a b n = p := by
  simp [afterTransfer, transfer_eq_insufficient p a b n h]

theorem afterTransfer_overflow (p : Pallet) (a b : String) (n : Nat)
    (h1 : n ≤ p.get_balance a) (h2 : U128_MAX < p.get_balance b + n) :
    afterTransfer p a b n = p := by
  simp [afterTransfer, transfer_eq_overflow p a b n h1 h2]

theorem get_balance_le_of_wf (p : Pallet) (h : p.WF) (a : String) :
    p.get_balance a ≤ U128_MAX := by
  obtain ⟨l⟩ := p
  simp only [Pallet.WF] at h
  simp only [Pallet.get_balance]
  induction l with
  | nil => simp [List.lookup, U128_MAX]
  | cons hd tl ih =>
      obtain ⟨k, v⟩ := hd
      simp only [List.lookup]
      cases hbe : (a == k) with
      | true =>
          simpa using h (k, v) (by simp)
      | false =>
          exact ih fun kv hkv => h kv (List.mem_cons_of_mem _ hkv)

/-! ### The claims -/

/-- C1: the spec requires a self-transfer `transfer(a, a, n)` with
`getBalance(a) >= n` to succeed and leave the balance unchanged.  The code
reads both balances before either write, so the second write
(`to_balance + amount`) clobbers the first and the balance ends up
increased by `n`: starting from `alice = 100`, `transfer(alice, alice, 10)`
returns `Ok` but leaves `alice` with `110`, not `100`. -/
theorem self_transfer_bug_C1 :
    (Pallet.new.set_balance "alice" 100).get_balance "alice" = 100 ∧
    (Pallet.new.set_balance "alice" 100).transfer "alice" "alice" 10 =
      .ok (Pallet.new.set_balance "alice" 110) ∧
    (afterTransfer (Pallet.new.set_balance "alice" 100) "alice" "alice"
        10).get_balance "alice" = 110 := by
  refine ⟨by decide, rfl, by decide⟩

/-- C2 counterexample: with `alice = 0`, `bob = u128::MAX` and amount `1`,
`getBalance(bob) + 1` exceeds `u128::MAX`, yet `transfer(alice, bob, 1)`
fails with "Not enough funds.", not "Overflow error.", because the
sufficient-funds check comes first. -/
theorem transfer_overflow_C2_counterexample :
    U128_MAX < (Pallet.new.set_balance "bob" U128_MAX).get_balance "bob" + 1 ∧
    (Pallet.new.set_balance "bob" U128_MAX).transfer "alice" "bob" 1 =
      .error "Not enough funds." ∧
    (Pallet.new.set_balance "bob" U128_MAX).transfer "alice" "bob" 1 ≠
      .error "Overflow error." := by
  refine ⟨by decide, rfl, fun h => ?_⟩
  have h2 : (Pallet.new.set_balance "bob" U128_MAX).transfer "alice" "bob" 1 =
      .error "Not enough funds." := rfl
  rw [h2] at h
  exact absurd (Except.error.inj h) (by decide)

/-- C2 (amended): when the caller has sufficient funds (`n ≤ getBalance(a)`)
and `getBalance(b) + n` exceeds `u128::MAX`, `transfer(a, b, n)` fails with
"Overflow error." and the state is unchanged. -/
theorem transfer_overflow_C2 (p : Pallet) (a b : String) (n : Nat)
    (h1 : n ≤ p.get_balance a) (h2 : U128_MAX < p.get_balance b + n) :
    p.transfer a b n = .error "Overflow error." ∧ afterTransfer p a b n = p :=
  ⟨transfer_eq_overflow p a b n h1 h2, afterTransfer_overflow p a b n h1 h2⟩

/-- Witness for C2: `alice = u128::MAX` transferring `u128::MAX` to herself
has sufficient funds and overflows the recipient side. -/
theorem transfer_overflow_C2_witness :
    (Pallet.new.set_balance "alice" U128_MAX).transfer "alice" "alice"
        U128_MAX = .error "Overflow error." ∧
      afterTransfer (Pallet.new.set_balance "alice" U128_MAX) "alice" "alice"
        U128_MAX = Pallet.new.set_balance "alice" U128_MAX :=
  transfer_overflow_C2 (Pallet.new.set_balance "alice" U128_MAX) "alice"
    "alice" U128_MAX (by decide) (by decide)

/-- C3: for distinct accounts, sufficient funds and no overflow,
`transfer(a, b, n)` succeeds, decreases `a`'s balance by exactly `n`,
increases `b`'s balance by exactly `n`, and conserves their sum. -/
theorem transfer_ok_C3 (p : Pallet) (a b : String) (n : Nat) (hab : a ≠ b)
    (h1 : n ≤ p.get_balance a) (h2 : p.get_balance b + n ≤ U128_MAX) :
    ∃ q, p.transfer a b n = .ok q ∧
      q.get_balance a = p.get_balance a - n ∧
      q.get_balance b = p.get_balance b + n ∧
      q.get_balance a + q.get_balance b =
        p.get_balance a + p.get_balance b := by
  refine ⟨_, transfer_eq_ok p a b n h1 h2, ?_, ?_, ?_⟩
  · rw [get_balance_set_ne _ _ _ _ hab, get_balance_set_self]
  · rw [get_balance_set_self]
  · rw [get_balance_set_ne _ _ _ _ hab, get_balance_set_self,
      get_balance_set_self]
    omega

/-- Witness for C3: `alice = 100` transfers `10` to `bob = 0`. -/
theorem transfer_ok_C3_witness :
    ∃ q, (Pallet.new.set_balance "alice" 100).transfer "alice" "bob" 10 =
        .ok q ∧
      q.get_balance "alice" =
        (Pallet.new.set_balance "alice" 100).get_balance "alice" - 10 ∧
      q.get_balance "bob" =
        (Pallet.new.set_balance "alice" 100).get_balance "bob" + 10 ∧
      q.get_balance "alice" + q.get_balance "bob" =
        (Pallet.new.set_balance "alice" 100).get_balance "alice" +
          (Pallet.new.set_balance "alice" 100).get_balance "bob" :=
  transfer_ok_C3 (Pallet.new.set_balance "alice" 100) "alice" "bob" 10
    (by decide) (by decide) (by decide)

/-- C4: when `getBalance(a) < n`, `transfer(a, b, n)` fails with
"Not enough funds." and the ledger state is completely unchanged. -/
theorem transfer_insufficient_C4 (p : Pallet) (a b : String) (n : Nat)
    (h : p.get_balance a < n) :
    p.transfer a b n = .error "Not enough funds." ∧ afterTransfer p a b n = p :=
  ⟨transfer_eq_insufficient p a b n h, afterTransfer_insufficient p a b n h⟩

/-- Witness for C4: on a fresh ledger `alice` has `0 < 10`. -/
theorem transfer_insufficient_C4_witness :
    Pallet.new.transfer "alice" "bob" 10 = .error "Not enough funds." ∧
      afterTransfer Pallet.new "alice" "bob" 10 = Pallet.new :=
  transfer_insufficient_C4 Pallet.new "alice" "bob" 10 (by decide)

/-- C5: when the caller lacks funds AND the recipient side would overflow,
the insufficient-funds check wins: the error is "Not enough funds." and no
mutation is performed. -/
theorem transfer_order_C5 (p : Pallet) (a b : String) (n : Nat)
    (h1 : p.get_balance a < n) (_h2 : U128_MAX < p.get_balance b + n) :
    p.transfer a b n = .error "Not enough funds." ∧ afterTransfer p a b n = p :=
  ⟨transfer_eq_insufficient p a b n h1, afterTransfer_insufficient p a b n h1⟩

/-- Witness for C5: `alice = 0`, `bob = u128::MAX`, amount `1`. -/
theorem transfer_order_C5_witness :
    (Pallet.new.set_balance "bob" U128_MAX).transfer "alice" "bob" 1 =
        .error "Not enough funds." ∧
      afterTransfer (Pallet.new.set_balance "bob" U128_MAX) "alice" "bob" 1 =
        Pallet.new.set_balance "bob" U128_MAX :=
  transfer_order_C5 (Pallet.new.set_balance "bob" U128_MAX) "alice" "bob" 1
    (by decide) (by decide)

/-- C6: `setBalance(a, v)` followed by `getBalance(a)` returns exactly `v`,
for every starting state. -/
theorem set_get_roundtrip_C6 (p : Pallet) (a : String) (v : Nat) :
    (p.set_balance a v).get_balance a = v :=
  get_balance_set_self p a v

/-- C7: `getBalance` returns `0` on a fresh ledger, and more generally `0`
for every account with no entry in the map (it is a total function: in this
embedding it returns a `Nat` on every input by construction). -/
theorem get_balance_default_C7 (a : String) :
    Pallet.new.get_balance a = 0 ∧
      ∀ p : Pallet, p.balances.lookup a = none → p.get_balance a = 0 := by
  refine ⟨rfl, fun p hp => ?_⟩
  simp [Pallet.get_balance, hp]

/-- Witness for C7: account "carol" on a ledger that only ever wrote
"alice" has no entry and reads `0`. -/
theorem get_balance_default_C7_witness :
    Pallet.new.get_balance "carol" = 0 ∧
      (Pallet.new.set_balance "alice" 7).balances.lookup "carol" = none ∧
      (Pallet.new.set_balance "alice" 7).get_balance "carol" = 0 :=
  ⟨(get_balance_default_C7 "carol").1, by decide,
    (get_balance_default_C7 "carol").2 (Pallet.new.set_balance "alice" 7)
      (by decide)⟩

/-- C8: a zero-amount transfer always succeeds — for every well-formed state
(all stored balances fit in `u128`, as the Rust type guarantees) — and both
the caller's and the recipient's balances are unchanged, including when
`a = b`. -/
theorem transfer_zero_C8 (p : Pallet) (a b : String) (h : p.WF) :
    ∃ q, p.transfer a b 0 = .ok q ∧
      q.get_balance a = p.get_balance a ∧
      q.get_balance b = p.get_balance b := by
  have hb := get_balance_le_of_wf p h b
  refine ⟨_, transfer_eq_ok p a b 0 (Nat.zero_le _) (by omega), ?_, ?_⟩
  · by_cases hab : a = b
    · subst hab
      rw [get_balance_set_self]
      omega
    · rw [get_balance_set_ne _ _ _ _ hab, get_balance_set_self]
      omega
  · rw [get_balance_set_self]
    omega

/-- Witness for C8: a zero-amount self-transfer on `alice = 5`. -/
theorem transfer_zero_C8_witness :
    ∃ q, (Pallet.new.set_balance "alice" 5).transfer "alice" "alice" 0 =
        .ok q ∧
      q.get_balance "alice" =
        (Pallet.new.set_balance "alice" 5).get_balance "alice" ∧
      q.get_balance "alice" =
        (Pallet.new.set_balance "alice" 5).get_balance "alice" :=
  transfer_zero_C8 (Pallet.new.set_balance "alice" 5) "alice" "alice"
    (by decide)

/-- C9: `transfer` is total and never crashes: on every state and input it
returns either success or one of the two recoverable errors
("Not enough funds." / "Overflow error.").  `set_balance` and
`get_balance` are total functions by construction. -/
theorem transfer_total_C9 (p : Pallet) (a b : String) (n : Nat) :
    (∃ q, p.transfer a b n = .ok q) ∨
      p.transfer a b n = .error "Not enough funds." ∨
      p.transfer a b n = .error "Overflow error." := by
  by_cases h1 : n ≤ p.get_balance a
  · by_cases h2 : p.get_balance b + n ≤ U128_MAX
    · exact .inl ⟨_, transfer_eq_ok p a b n h1 h2⟩
    · exact .inr (.inr (transfer_eq_overflow p a b n h1 (Nat.not_le.1 h2)))
  · exact .inr (.inl (transfer_eq_insufficient p a b n (Nat.not_le.1 h1)))

/-- C10 (frame): any account distinct from both `caller` and `to` has the
same balance before and after `transfer`, whether it succeeds or fails;
`get_balance` itself is pure in this embedding (its `&mut self` signature
notwithstanding, it performs no write). -/
theorem transfer_frame_C10 (p : Pallet) (caller toAcc x : String) (n : Nat)
    (h1 : x ≠ caller) (h2 : x ≠ toAcc) :
    (afterTransfer p caller toAcc n).get_balance x = p.get_balance x := by
  unfold afterTransfer
  by_cases hc1 : n ≤ p.get_balance caller
  · by_cases hc2 : p.get_balance toAcc + n ≤ U128_MAX
    · rw [transfer_eq_ok p caller toAcc n hc1 hc2]
      simp only
      rw [get_balance_set_ne _ _ _ _ h2, get_balance_set_ne _ _ _ _ h1]
    · rw [transfer_eq_overflow p caller toAcc n hc1 (Nat.not_le.1 hc2)]
  · rw [transfer_eq_insufficient p caller toAcc n (Nat.not_le.1 hc1)]

/-- Witness for C10: `carol`'s balance survives a successful transfer from
`alice` to `bob`. -/
theorem transfer_frame_C10_witness :
    (afterTransfer
        ((Pallet.new.set_balance "alice" 100).set_balance "carol" 55)
        "alice" "bob" 10).get_balance "carol" =
      ((Pallet.new.set_balance "alice" 100).set_balance "carol"
        55).get_balance "carol" :=
  transfer_frame_C10
    ((Pallet.new.set_balance "alice" 100).set_balance "carol" 55)
    "alice" "bob" "carol" 10 (by decide) (by decide)

end Balances
